import Mathlib

/-!
Shallow embedding of `src/python/export_demucs_v4_pytorch_onnx.py`, the
one-shot script that exports the pretrained Demucs v4 (`htdemucs_6s`) model
to a single-input ONNX graph with the STFT internalized.

The script's own logic is embedded directly from the source.  The external
collaborators (the `demucs` model registry, the HTDemucs network itself,
`torch.randn`, `torch.onnx.export`, the `warnings` module and the file
system) are modelled as explicit data: the model is an abstract record of
its two entry points (`_spec` and the two-input call) plus its parameters,
randomness is a generator-state parameter, and the export/serialization
step records exactly the declarations the script passes to it.
-/

namespace DemucsExport

/-- A tensor: a shape (list of dimension sizes) together with its contents,
kept as an indexed stream of values so that huge tensors stay symbolic. -/
structure Tensor where
  shape : List Nat
  data : Nat → Int

/-- Device placement of a model. -/
inductive Device
  | cpu
  | cuda
deriving DecidableEq

/-- Abstract model of the externally loaded HTDemucs network: its internal
transform routine `_spec` (the STFT), its native two-input inference entry
point `call` (Python's `self.model(waveform, z)`), its parameters/weights,
its training flag and its device placement.  The bodies of `_spec` and
`call` live in the external `demucs` library, not in this repository, so
they are opaque functions here. -/
structure HTDemucs where
  _spec : Tensor → Tensor
  call : Tensor → Tensor → Tensor
  params : Nat → Int
  training : Bool
  device : Device

/-- `real_model.cpu()`: places the model on CPU memory. -/
def HTDemucs.cpu (m : HTDemucs) : HTDemucs :=
  { m with device := Device.cpu }

/-- `real_model.eval()`: places the model in evaluation (inference) mode. -/
def HTDemucs.eval (m : HTDemucs) : HTDemucs :=
  { m with training := false }

/-- The multi-model ensemble returned by the `demucs` registry
(`get_model` returns a bag; the script selects `.models[0]`). -/
structure BagOfModels where
  models : List HTDemucs

/-- The wrapper class authored by the script (source lines 77-85): holds a
reference to the wrapped model and nothing else. -/
structure WaveformOnlyWrapper where
  model : HTDemucs

/-- `WaveformOnlyWrapper.forward` (source lines 82-85): computes
`z = self.model._spec(input_waveform)` and returns
`self.model(input_waveform, z)`. -/
def WaveformOnlyWrapper.forward (w : WaveformOnlyWrapper) (input_waveform : Tensor) : Tensor :=
  let z := w.model._spec input_waveform
  w.model.call input_waveform z

/-- Written from the spec's words, for the refinement claim: "calling the
wrapped model's native two-input inference entry point directly with the
waveform and its transform computed the same way" (by the wrapped model's
own transform routine). -/
def direct_two_input_call (m : HTDemucs) (waveform : Tensor) : Tensor :=
  m.call waveform (m._spec waveform)

/-- State of the process's pseudo-random number generator.  The script
never seeds it, so each execution starts from a different state. -/
structure RNG where
  state : Nat
deriving DecidableEq

/-- Model of the external library routine `torch.randn(dims)`: returns a
tensor of the requested shape whose contents are drawn from the current
generator state (so the contents are a function of the state, while the
shape is fixed by the arguments). -/
def torch_randn (dims : List Nat) (g : RNG) : Tensor :=
  { shape := dims, data := fun i => Int.ofNat (g.state + i) }

/-- The keyword arguments the script passes to `torch.onnx.export`
(source lines 99-113). -/
structure ExportArgs where
  opset_version : Nat
  input_names : List String
  output_names : List String
  dynamic_axes : List (String × List (Nat × String))
  do_constant_folding : Bool
  export_params : Bool
  verbose : Bool
deriving DecidableEq

/-- The exact argument record of the script's single export call
(source lines 103-112). -/
def scriptExportArgs : ExportArgs :=
  { opset_version := 17
    input_names := ["input"]
    output_names := ["output"]
    dynamic_axes :=
      [("input", [(0, "batch"), (2, "time")]),
       ("output", [(0, "batch"), (3, "time")])]
    do_constant_folding := true
    export_params := true
    verbose := false }

/-- The serialized computation-graph file: the declarations recorded in it
(graph-format version, boundary tensor names, dynamic axes), the shape of
the dummy input the trace ran on, and the traced function itself. -/
structure GraphFile where
  opset_version : Nat
  input_names : List String
  output_names : List String
  dynamic_axes : List (String × List (Nat × String))
  traced_input_shape : List Nat
  graph_fn : Tensor → Tensor

/-- Model of the external library routine `torch.onnx.export`: traces one
forward execution of the wrapped model on the dummy input and serializes a
graph carrying exactly the declarations it was passed (byte-level layout is
owned by the library; only the declared structure is modelled). -/
def torch_onnx_export (wrapped : WaveformOnlyWrapper) (dummy : Tensor)
    (args : ExportArgs) : GraphFile :=
  { opset_version := args.opset_version
    input_names := args.input_names
    output_names := args.output_names
    dynamic_axes := args.dynamic_axes
    traced_input_shape := dummy.shape
    graph_fn := wrapped.forward }

/-- The file system visible to the script: a map from paths to the graph
files stored there. -/
structure FileSystem where
  files : String → Option GraphFile

/-- Writing a file: stores the content at the path, replacing whatever was
there before, with no confirmation step. -/
def FileSystem.write (fs : FileSystem) (path : String) (g : GraphFile) : FileSystem :=
  { files := fun p => if p = path then some g else fs.files p }

/-- Categories of Python warnings relevant to the run. -/
inductive WCategory
  | UserWarning
  | DeprecationWarning
  | FutureWarning
deriving DecidableEq

/-- A warning emitted during the run. -/
structure Warning where
  category : WCategory
  msg : String
deriving DecidableEq

/-- The process-global warnings filter state. -/
structure WarningsFilter where
  ignored : List WCategory

/-- The filter state at interpreter start: nothing suppressed. -/
def WarningsFilter.empty : WarningsFilter :=
  ⟨[]⟩

/-- `warnings.filterwarnings('ignore', category=c)`: installs a global
filter suppressing every warning of category `c`. -/
def WarningsFilter.filterwarnings_ignore (f : WarningsFilter) (c : WCategory) : WarningsFilter :=
  ⟨c :: f.ignored⟩

/-- Whether a warning reaches the console under the current filter. -/
def WarningsFilter.displays (f : WarningsFilter) (w : Warning) : Bool :=
  decide (w.category ∉ f.ignored)

/-- The model name constant (source line 56). -/
def name : String :=
  "htdemucs_6s"

/-- The fixed chunk size at 44100 Hz (source line 93). -/
def segment : Nat :=
  343980

/-- The fixed output path (source line 95). -/
def output_file : String :=
  "htdemucs_6s_waveform.onnx"

/-- Errors that external collaborators can raise into the script. -/
inductive ScriptError
  | unknownModel
  | emptyBag
  | exportFailure
deriving DecidableEq

/-- The environment the script runs in: the external model registry
(`get_model` resolves a name to an ensemble, or raises), a possible fault
injected by the tracing/serialization step, and the warnings the external
calls emit. -/
structure Env where
  reg : String → Option BagOfModels
  exportFault : Option ScriptError
  loadWarnings : List Warning
  exportWarnings : List Warning

/-- The state a successful run ends in: the final file system, the model
that was wrapped and exported, the serialized graph, and the warnings that
reached the console. -/
structure ScriptResult where
  fs : FileSystem
  real_model : HTDemucs
  graph : GraphFile
  displayedWarnings : List Warning

/-- Outcome of a run: normal completion, or an uncaught propagated error
together with the file system and console warnings at the point of failure. -/
inductive ScriptOutcome
  | ok : ScriptResult → ScriptOutcome
  | err : ScriptError → FileSystem → List Warning → ScriptOutcome

/-- The warnings filter the script installs first thing (source line 51):
`warnings.filterwarnings('ignore', category=UserWarning)`. -/
def scriptFilter : WarningsFilter :=
  WarningsFilter.empty.filterwarnings_ignore WCategory.UserWarning

/-- The tail of a run in which every external call succeeded (source
lines 60-113): `.cpu()`, `.eval()`, wrap, build the dummy input, export,
write the file. -/
def scriptSuccess (env : Env) (g : RNG) (fs0 : FileSystem) (m : HTDemucs) : ScriptResult :=
  let real_model := (m.cpu).eval
  let wrapped_model := WaveformOnlyWrapper.mk real_model
  let dummy_input := torch_randn [1, 2, segment] g
  let graph := torch_onnx_export wrapped_model dummy_input scriptExportArgs
  { fs := fs0.write output_file graph
    real_model := real_model
    graph := graph
    displayedWarnings := (env.loadWarnings ++ env.exportWarnings).filter scriptFilter.displays }

/-- The whole script as one straight-line run (source lines 47-113),
parameterized by the environment, the command-line arguments (which the
script never reads), the RNG state and the initial file system:
install the UserWarning filter, `get_model(name)`, select `.models[0]`,
then the success tail `scriptSuccess` unless the tracing/serialization
step faults.  Every failure from an external call propagates and aborts
the run. -/
def runScript (env : Env) (argv : List String) (g : RNG) (fs0 : FileSystem) : ScriptOutcome :=
  match env.reg name with
  | none =>
      ScriptOutcome.err ScriptError.unknownModel fs0
        (env.loadWarnings.filter scriptFilter.displays)
  | some wrapper_bag =>
    match wrapper_bag.models[0]? with
    | none =>
        ScriptOutcome.err ScriptError.emptyBag fs0
          (env.loadWarnings.filter scriptFilter.displays)
    | some m =>
      match env.exportFault with
      | some e =>
          ScriptOutcome.err e fs0
            ((env.loadWarnings ++ env.exportWarnings).filter scriptFilter.displays)
      | none => ScriptOutcome.ok (scriptSuccess env g fs0 m)

/-- Process exit code of an outcome: implicit 0 on completion, non-zero on
an uncaught propagated failure. -/
def exitCode : ScriptOutcome → Nat
  | ScriptOutcome.ok _ => 0
  | ScriptOutcome.err _ _ _ => 1

/-- The file system an outcome leaves behind. -/
def outcomeFs : ScriptOutcome → FileSystem
  | ScriptOutcome.ok r => r.fs
  | ScriptOutcome.err _ fs _ => fs

/-- The warnings an outcome displayed on the console. -/
def outcomeWarnings : ScriptOutcome → List Warning
  | ScriptOutcome.ok r => r.displayedWarnings
  | ScriptOutcome.err _ _ ws => ws

/-- Modelled from the spec: the wrapped model's shape behavior, which lives
in the external `demucs` library and not in this repository.  "Output stems
tensor: shape (batch, 6 separated-source stems, 2 channels, time-samples)"
for a waveform input of shape (batch, 2 channels, time-samples). -/
def StemShapeContract (m : HTDemucs) : Prop :=
  ∀ (b n : Nat) (t : Tensor), t.shape = [b, 2, n] →
    (m.call t (m._spec t)).shape = [b, 6, 2, n]

/-- A concrete HTDemucs instance used to evaluate the theorems: its call
produces a stems tensor of shape (batch, 6, channels, time) as the spec
describes, and it starts off CPU and in training mode so the script's
`.cpu()`/`.eval()` calls are observable. -/
def mW : HTDemucs :=
  { _spec := fun _ => { shape := [1, 4, 2049, 336], data := fun _ => 0 }
    call := fun t _ =>
      { shape :=
        match t.shape with
        | [b, c, n] => [b, 6, c, n]
        | s => s
        data := fun _ => 0 }
    params := fun i => Int.ofNat i
    training := true
    device := Device.cuda }

/-- A one-model ensemble containing `mW`. -/
def bag0 : BagOfModels :=
  ⟨[mW]⟩

/-- An environment whose registry knows exactly the script's model name. -/
def env0 : Env :=
  { reg := fun s => if s = name then some bag0 else none
    exportFault := none
    loadWarnings := []
    exportWarnings := [] }

/-- A concrete generator state. -/
def g0 : RNG :=
  ⟨0⟩

/-- An empty file system. -/
def fsEmpty : FileSystem :=
  ⟨fun _ => none⟩

/-- The model the script run built from `mW`: moved to CPU, put in eval mode. -/
def realModel0 : HTDemucs :=
  (mW.cpu).eval

/-- The dummy trace input of the concrete run. -/
def dummy0 : Tensor :=
  torch_randn [1, 2, segment] g0

/-- The graph the concrete run serializes. -/
def graph0 : GraphFile :=
  torch_onnx_export (WaveformOnlyWrapper.mk realModel0) dummy0 scriptExportArgs

/-- The result of the concrete successful run from the empty file system. -/
def res0 : ScriptResult :=
  scriptSuccess env0 g0 fsEmpty mW

/-- An environment whose registry knows no model name at all. -/
def envBad : Env :=
  { reg := fun _ => none
    exportFault := none
    loadWarnings := []
    exportWarnings := [] }

/-- A pre-existing stale graph file. -/
def oldGraph : GraphFile :=
  { opset_version := 11
    input_names := ["x"]
    output_names := ["y"]
    dynamic_axes := []
    traced_input_shape := []
    graph_fn := fun t => t }

/-- A file system that already holds a file at the script's output path. -/
def fsPre : FileSystem :=
  ⟨fun p => if p = output_file then some oldGraph else none⟩

/-- The result of the concrete successful run from `fsPre`. -/
def res1 : ScriptResult :=
  scriptSuccess env0 g0 fsPre mW

/-- A non-UserWarning warning emitted by the loader. -/
def wDep : Warning :=
  ⟨WCategory.DeprecationWarning, "deprecated api"⟩

/-- An environment whose loader emits both a UserWarning and a
DeprecationWarning. -/
def envW : Env :=
  { reg := fun s => if s = name then some bag0 else none
    exportFault := none
    loadWarnings := [⟨WCategory.UserWarning, "some torch warning"⟩, wDep]
    exportWarnings := [] }

/-- Helper: everything a successful run determines, by unfolding the
straight-line script. -/
theorem runScript_ok_elim {env : Env} {argv : List String} {g : RNG} {fs0 : FileSystem}
    {res : ScriptResult} (hres : runScript env argv g fs0 = ScriptOutcome.ok res) :
    ∃ bag m, env.reg name = some bag ∧ bag.models[0]? = some m ∧
      env.exportFault = none ∧ res = scriptSuccess env g fs0 m := by
  unfold runScript at hres
  split at hres
  next hreg => simp at hres
  next bag hreg =>
    split at hres
    next hm => simp at hres
    next m hm =>
      split at hres
      next e hf => simp at hres
      next hf =>
        injection hres with h
        exact ⟨bag, m, hreg, hm, hf, h.symm⟩

/-- C1: the wrapper's forward pass returns exactly the result of calling
the wrapped model's native two-input inference entry point with the
waveform and the transform computed by the model's own transform routine
on the same waveform — a pure refactor of the direct two-input call. -/
theorem wrapper_forward_is_direct_two_input_call
    (w : WaveformOnlyWrapper) (x : Tensor) :
    w.forward x = direct_two_input_call w.model x :=
  rfl

/-- C2: every successful run of the script serializes a graph with opset
version 17, exactly one input tensor named `input`, one output tensor
named `output`, dynamic axes 0 and 2 of the input and 0 and 3 of the
output, traced on a single fixed-shape dummy input of shape
(1, 2, 343980). -/
theorem export_call_declarations (env : Env) (argv : List String) (g : RNG)
    (fs0 : FileSystem) (res : ScriptResult)
    (hres : runScript env argv g fs0 = ScriptOutcome.ok res) :
    res.graph.opset_version = 17 ∧
    res.graph.input_names = ["input"] ∧
    res.graph.output_names = ["output"] ∧
    res.graph.dynamic_axes =
      [("input", [(0, "batch"), (2, "time")]),
       ("output", [(0, "batch"), (3, "time")])] ∧
    res.graph.traced_input_shape = [1, 2, 343980] := by
  obtain ⟨bag, m, _, _, _, hr⟩ := runScript_ok_elim hres
  subst hr
  exact ⟨rfl, rfl, rfl, rfl, rfl⟩

/-- Witness for C2: the concrete successful run from the empty file system
has exactly the declared graph structure. -/
theorem export_call_declarations_witness :
    res0.graph.opset_version = 17 ∧
    res0.graph.input_names = ["input"] ∧
    res0.graph.output_names = ["output"] ∧
    res0.graph.dynamic_axes =
      [("input", [(0, "batch"), (2, "time")]),
       ("output", [(0, "batch"), (3, "time")])] ∧
    res0.graph.traced_input_shape = [1, 2, 343980] :=
  export_call_declarations env0 [] g0 fsEmpty res0 rfl

/-- C3: for any wrapped model meeting the spec's stems-shape contract, the
wrapper's output on the fixed dummy trace input of shape (1, 2, 343980)
has shape (1, 6, 2, 343980). -/
theorem dummy_forward_shape (m : HTDemucs) (h : StemShapeContract m) (g : RNG) :
    ((WaveformOnlyWrapper.mk m).forward (torch_randn [1, 2, segment] g)).shape
      = [1, 6, 2, 343980] :=
  h 1 343980 (torch_randn [1, 2, segment] g) rfl

/-- The concrete model `mW` satisfies the stems-shape contract. -/
theorem mW_contract : StemShapeContract mW := by
  intro b n t ht
  simp [mW, ht]

/-- Witness for C3: evaluated at the concrete model and generator state. -/
theorem dummy_forward_shape_witness :
    ((WaveformOnlyWrapper.mk mW).forward (torch_randn [1, 2, segment] g0)).shape
      = [1, 6, 2, 343980] :=
  dummy_forward_shape mW mW_contract g0

/-- C4: a successful run resolves the fixed name `htdemucs_6s` through the
registry, selects the first constituent model of the ensemble, and moves
it to CPU and into evaluation mode before wrapping and exporting it: the
exported graph's traced function is the wrapper built over that prepared
model. -/
theorem load_step_cpu_eval (env : Env) (argv : List String) (g : RNG)
    (fs0 : FileSystem) (res : ScriptResult) (bag : BagOfModels) (m : HTDemucs)
    (hreg : env.reg name = some bag)
    (hm : bag.models[0]? = some m)
    (hres : runScript env argv g fs0 = ScriptOutcome.ok res) :
    name = "htdemucs_6s" ∧
    res.real_model = (m.cpu).eval ∧
    res.real_model.device = Device.cpu ∧
    res.real_model.training = false ∧
    res.graph.graph_fn = (WaveformOnlyWrapper.mk res.real_model).forward := by
  obtain ⟨bag2, m2, hreg2, hm2, _, hr⟩ := runScript_ok_elim hres
  rw [hreg] at hreg2
  injection hreg2 with hbag
  subst hbag
  rw [hm] at hm2
  injection hm2 with hmm
  subst hmm
  subst hr
  exact ⟨rfl, rfl, rfl, rfl, rfl⟩

/-- Witness for C4: the concrete run prepares `mW` on CPU in eval mode. -/
theorem load_step_cpu_eval_witness :
    name = "htdemucs_6s" ∧
    res0.real_model = (mW.cpu).eval ∧
    res0.real_model.device = Device.cpu ∧
    res0.real_model.training = false ∧
    res0.graph.graph_fn = (WaveformOnlyWrapper.mk res0.real_model).forward :=
  load_step_cpu_eval env0 [] g0 fsEmpty res0 bag0 mW rfl rfl rfl

/-- C5: failures propagate uncaught with non-zero exit; in particular, when
the registry does not know the model name, the run aborts with the file
system exactly as it started — no partial output file is created — and any
error outcome whatsoever carries a non-zero exit code. -/
theorem failure_propagates (env : Env) (argv : List String) (g : RNG) (fs0 : FileSystem) :
    (env.reg name = none →
      runScript env argv g fs0 =
        ScriptOutcome.err ScriptError.unknownModel fs0
          (env.loadWarnings.filter scriptFilter.displays) ∧
      outcomeFs (runScript env argv g fs0) = fs0 ∧
      exitCode (runScript env argv g fs0) ≠ 0) ∧
    (∀ (e : ScriptError) (fsE : FileSystem) (ws : List Warning),
      runScript env argv g fs0 = ScriptOutcome.err e fsE ws →
      fsE = outcomeFs (runScript env argv g fs0) ∧
      exitCode (runScript env argv g fs0) ≠ 0) := by
  constructor
  · intro h
    have hrun : runScript env argv g fs0 =
        ScriptOutcome.err ScriptError.unknownModel fs0
          (env.loadWarnings.filter scriptFilter.displays) := by
      unfold runScript
      rw [h]
    refine ⟨hrun, ?_, ?_⟩
    · rw [hrun]
      simp [outcomeFs]
    · rw [hrun]
      simp [exitCode]
  · intro e fsE ws hrun
    rw [hrun]
    exact ⟨rfl, by simp [exitCode]⟩

/-- Witness for C5: the run against a registry that knows no names fails
with exit code 1 and leaves the empty file system untouched. -/
theorem failure_propagates_witness :
    runScript envBad [] g0 fsEmpty =
      ScriptOutcome.err ScriptError.unknownModel fsEmpty [] ∧
    outcomeFs (runScript envBad [] g0 fsEmpty) = fsEmpty ∧
    exitCode (runScript envBad [] g0 fsEmpty) ≠ 0 := by
  have h := (failure_propagates envBad [] g0 fsEmpty).1 rfl
  exact ⟨h.1, h.2.1, h.2.2⟩

/-- C6: nothing modifies the wrapped model's weights: the wrapper holds
exactly a reference to the model and nothing else, `.cpu()` and `.eval()`
preserve the parameters, and the model a successful run wraps and exports
still carries exactly the parameters of the first constituent model the
registry returned. -/
theorem weights_unmodified (env : Env) (argv : List String) (g : RNG)
    (fs0 : FileSystem) (res : ScriptResult) (bag : BagOfModels) (m : HTDemucs)
    (hreg : env.reg name = some bag)
    (hm : bag.models[0]? = some m)
    (hres : runScript env argv g fs0 = ScriptOutcome.ok res) :
    (∀ mm : HTDemucs, (WaveformOnlyWrapper.mk mm).model = mm) ∧
    (∀ wmod : WaveformOnlyWrapper, wmod = WaveformOnlyWrapper.mk wmod.model) ∧
    (∀ mm : HTDemucs, (mm.cpu).params = mm.params ∧ (mm.eval).params = mm.params) ∧
    res.real_model.params = m.params ∧
    res.graph.graph_fn = (WaveformOnlyWrapper.mk res.real_model).forward := by
  obtain ⟨bag2, m2, hreg2, hm2, _, hr⟩ := runScript_ok_elim hres
  rw [hreg] at hreg2
  injection hreg2 with hbag
  subst hbag
  rw [hm] at hm2
  injection hm2 with hmm
  subst hmm
  subst hr
  exact ⟨fun _ => rfl, fun _ => rfl, fun _ => ⟨rfl, rfl⟩, rfl, rfl⟩

/-- Witness for C6: on the concrete run, the exported model still carries
`mW`'s parameters. -/
theorem weights_unmodified_witness :
    (WaveformOnlyWrapper.mk mW).model = mW ∧
    res0.real_model.params = mW.params ∧
    (mW.cpu).params = mW.params := by
  have h := weights_unmodified env0 [] g0 fsEmpty res0 bag0 mW rfl rfl rfl
  exact ⟨h.1 mW, h.2.2.2.1, (h.2.2.1 mW).1⟩

/-- C7: a successful run writes the serialized graph to the single fixed
path `htdemucs_6s_waveform.onnx`, replacing whatever was stored there with
no confirmation, and touches no other path — so consecutive runs target
the same destination. -/
theorem output_path_overwrite (env : Env) (argv : List String) (g : RNG)
    (fs0 : FileSystem) (res : ScriptResult)
    (hres : runScript env argv g fs0 = ScriptOutcome.ok res) :
    output_file = "htdemucs_6s_waveform.onnx" ∧
    res.fs.files output_file = some res.graph ∧
    (∀ p, p ≠ output_file → res.fs.files p = fs0.files p) := by
  obtain ⟨bag, m, _, _, _, hr⟩ := runScript_ok_elim hres
  subst hr
  refine ⟨rfl, ?_, ?_⟩
  · simp [scriptSuccess, FileSystem.write]
  · intro p hp
    simp [scriptSuccess, FileSystem.write, hp]

/-- Witness for C7: running over a file system that already holds a stale
graph at the output path replaces it with the fresh graph and leaves other
paths untouched. -/
theorem output_path_overwrite_witness :
    fsPre.files output_file = some oldGraph ∧
    res1.fs.files output_file = some res1.graph ∧
    res1.fs.files "unrelated.txt" = fsPre.files "unrelated.txt" := by
  have h := output_path_overwrite env0 [] g0 fsPre res1 rfl
  exact ⟨rfl, h.2.1, h.2.2 "unrelated.txt" (by decide)⟩

/-- C8: the script reads no command-line configuration: the run is
literally the same function of the environment for any argument vector,
and the model name, output path, dummy shape and graph-format version are
the same fixed constants on every invocation. -/
theorem no_cli_configuration (argv1 argv2 : List String) (env : Env)
    (g : RNG) (fs0 : FileSystem) :
    runScript env argv1 g fs0 = runScript env argv2 g fs0 ∧
    name = "htdemucs_6s" ∧
    output_file = "htdemucs_6s_waveform.onnx" ∧
    segment = 343980 ∧
    scriptExportArgs.opset_version = 17 ∧
    (torch_randn [1, 2, segment] g).shape = [1, 2, 343980] :=
  ⟨rfl, rfl, rfl, rfl, rfl, rfl⟩

/-- C9: the dummy trace input comes from the unseeded generator: its shape
is the constant (1, 2, 343980) whatever the generator state, while its
contents differ between any two executions whose generator states differ. -/
theorem dummy_input_unseeded_randomness (g1 g2 : RNG) (hne : g1 ≠ g2) :
    (torch_randn [1, 2, segment] g1).shape = [1, 2, 343980] ∧
    (torch_randn [1, 2, segment] g2).shape = [1, 2, 343980] ∧
    (torch_randn [1, 2, segment] g1).data 0 ≠ (torch_randn [1, 2, segment] g2).data 0 := by
  refine ⟨rfl, rfl, ?_⟩
  intro h
  apply hne
  cases g1 with
  | mk s1 =>
    cases g2 with
    | mk s2 =>
      simp [torch_randn] at h
      rw [h]

/-- Witness for C9: two concrete generator states give the same shape but
different first samples. -/
theorem dummy_input_unseeded_randomness_witness :
    (torch_randn [1, 2, segment] (⟨0⟩ : RNG)).shape = [1, 2, 343980] ∧
    (torch_randn [1, 2, segment] (⟨1⟩ : RNG)).shape = [1, 2, 343980] ∧
    (torch_randn [1, 2, segment] (⟨0⟩ : RNG)).data 0 ≠
      (torch_randn [1, 2, segment] (⟨1⟩ : RNG)).data 0 :=
  dummy_input_unseeded_randomness ⟨0⟩ ⟨1⟩ (by decide)

/-- Helper: no warning that survives the script's filter is a UserWarning. -/
theorem mem_filter_not_user {ws : List Warning} {w : Warning}
    (h : w ∈ ws.filter scriptFilter.displays) :
    w.category ≠ WCategory.UserWarning := by
  have h2 := (List.mem_filter.mp h).2
  simp [WarningsFilter.displays, scriptFilter, WarningsFilter.filterwarnings_ignore,
    WarningsFilter.empty] at h2
  exact h2

/-- C10: the filter installed before loading suppresses every UserWarning
for the entire run: whatever the loader or exporter emits, and whether the
run succeeds or aborts, no warning reaching the console has category
UserWarning. -/
theorem user_warnings_suppressed (env : Env) (argv : List String) (g : RNG)
    (fs0 : FileSystem) (w : Warning)
    (hw : w ∈ outcomeWarnings (runScript env argv g fs0)) :
    w.category ≠ WCategory.UserWarning := by
  unfold runScript at hw
  split at hw
  next hreg => exact mem_filter_not_user (by simpa only [outcomeWarnings] using hw)
  next bag hreg =>
    split at hw
    next hm => exact mem_filter_not_user (by simpa only [outcomeWarnings] using hw)
    next m hm =>
      split at hw
      next e hf => exact mem_filter_not_user (by simpa only [outcomeWarnings] using hw)
      next hf =>
        simp only [outcomeWarnings] at hw
        exact mem_filter_not_user hw

/-- Witness for C10: in a run whose loader emits a UserWarning and a
DeprecationWarning, the DeprecationWarning reaches the console and the
theorem applies to it. -/
theorem user_warnings_suppressed_witness :
    wDep.category ≠ WCategory.UserWarning := by
  have hmem : wDep ∈ outcomeWarnings (runScript envW [] g0 fsEmpty) := by
    have h : outcomeWarnings (runScript envW [] g0 fsEmpty) = [wDep] := rfl
    rw [h]
    exact List.mem_singleton.mpr rfl
  exact user_warnings_suppressed envW [] g0 fsEmpty wDep hmem

end DemucsExport
